import Mathlib

/-!
Shallow embedding of the JobAppAutofill core (job_application_autofill.py and
model_interface.py) and proofs about the behaviour its specification claims.

Python strings are modelled as Lean `String` (or `List Char` where the code
iterates characters), Python `None`-able attribute reads as `Option String`,
the `answer_history` dict as a function `String → Option (List String)`, and
floating point temperatures as exact rationals (the code only ever uses the
literals 0.7, 0.9, 1.5).
-/

/-- Python truthiness of an optional string attribute: `None` and `""` are
falsy, everything else truthy (used by `if element_id:`-style guards). -/
def pyTruthy : Option String → Bool
  | none => false
  | some s => !(s == "")

/-- Python `a or b` specialised to an optional string on the left: yields the
left value when truthy, otherwise the right (used by the attribute fallback
chain `aria-label or placeholder or name or "Unknown field"`). -/
def pyOrStr (a : Option String) (b : String) : String :=
  match a with
  | none => b
  | some s => if s == "" then b else s

/-- Python `str.strip(chars)` on a character list: drop characters satisfying
`p` from both ends. -/
def stripList (p : Char → Bool) (l : List Char) : List Char :=
  ((l.dropWhile p).reverse.dropWhile p).reverse

/-- Python `str.strip()`: drop whitespace from both ends. -/
def pyStrip (s : String) : String :=
  String.mk (stripList (fun c => c.isWhitespace) s.data)

/-- Python `str.lower()`: lowercase every character. -/
def pyLower (s : String) : String :=
  String.mk (s.data.map Char.toLower)

/- ======================== get_field_label ======================== -/

/-- The results of the page probes `get_field_label` can make for one element:
the element's own attributes and, for each of the four DOM label-search
strategies, the text of the matched label element (`none` models
`NoSuchElementException`). -/
structure FieldProbe where
  idAttr : Option String
  forLabelText : Option String
  ancestorLabelText : Option String
  precedingLabelText : Option String
  siblingLabelText : Option String
  ariaLabel : Option String
  placeholder : Option String
  nameAttr : Option String
deriving DecidableEq

/-- One DOM strategy step of `get_field_label`: if a label element was found,
strip its text and accept it only when non-empty, exactly the
`label_text = label.text.strip(); if label_text: return label_text` pattern. -/
def tryLabel : Option String → Option String
  | none => none
  | some t => if pyStrip t == "" then none else some (pyStrip t)

/-- Embedding of `JobApplicationAutofill.get_field_label` (lines 337-391):
methods 1-4 in order (method 1 only runs when the id attribute is truthy),
then the attribute fallback
`aria-label or placeholder or name or "Unknown field"`. -/
def get_field_label (e : FieldProbe) : String :=
  match tryLabel (if pyTruthy e.idAttr then e.forLabelText else none) with
  | some s => s
  | none =>
  match tryLabel e.ancestorLabelText with
  | some s => s
  | none =>
  match tryLabel e.precedingLabelText with
  | some s => s
  | none =>
  match tryLabel e.siblingLabelText with
  | some s => s
  | none => pyOrStr e.ariaLabel (pyOrStr e.placeholder (pyOrStr e.nameAttr "Unknown field"))

/-- Label resolution as the (amended) specification words it: the four DOM
strategies in priority order, first non-empty-after-trimming text wins; then
the three attributes in priority order, first raw non-empty value wins
untrimmed; else the sentinel. -/
def label_resolution_model (e : FieldProbe) : String :=
  let domStrategies : List (Option String) :=
    [if pyTruthy e.idAttr then e.forLabelText else none,
     e.ancestorLabelText, e.precedingLabelText, e.siblingLabelText]
  let attrStrategies : List (Option String) := [e.ariaLabel, e.placeholder, e.nameAttr]
  match (domStrategies.filterMap tryLabel).head? with
  | some s => s
  | none =>
    match (attrStrategies.filterMap (fun o => match o with
      | none => none
      | some s => if s == "" then none else some s)).head? with
    | some s => s
    | none => "Unknown field"

/- ======================== answer history and change_answer ======================== -/

/-- Direction argument of `change_answer`. -/
inductive Direction where
  | previous
  | next
deriving DecidableEq

/-- Outcome of one `change_answer` call on a field whose label already has
history `history`: the answer typed into the field, the label's history after
the call, and whether a fresh model generation happened. -/
structure ChangeOutcome where
  newAnswer : String
  history : List String
  generated : Bool
deriving DecidableEq

/-- Embedding of the cursor computation in `change_answer` (lines 413-418):
`self.answer_history[label].index(current_value) if current_value in
self.answer_history[label] else -1` (first occurrence, or -1). -/
def current_index (hist : List String) (v : String) : Int :=
  match hist.findIdx? (fun a => a == v) with
  | some i => (i : Int)
  | none => -1

/-- Embedding of the navigation core of `change_answer` (lines 403-440) for a
label present in `answer_history` with entries `hist`; `gen` is the answer the
model would produce if a fresh generation is triggered. -/
def change_answer (dir : Direction) (hist : List String) (currentValue gen : String) :
    ChangeOutcome :=
  let ci := current_index hist currentValue
  match dir with
  | .previous =>
      let newIndex := max 0 (ci - 1)
      { newAnswer := hist.getD newIndex.toNat "", history := hist, generated := false }
  | .next =>
      if ci < (hist.length : Int) - 1 then
        { newAnswer := hist.getD (ci + 1).toNat "", history := hist, generated := false }
      else
        { newAnswer := gen, history := hist ++ [gen], generated := true }

/-- Embedding of the per-field history write of `fill_all_fields`
(line 232): `self.answer_history[label] = [response]`. -/
def fill_record (h : String → Option (List String)) (label response : String) :
    String → Option (List String) :=
  fun l => if l = label then some [response] else h l

/- ======================== orchestrator state ======================== -/

/-- The mutable orchestrator state the claims are about:
`current_application_context` and `answer_history`. -/
structure AppState where
  current_application_context : List (String × String)
  answer_history : String → Option (List String)

/-- Embedding of `new_application` (lines 100-102). -/
def new_application (s : AppState) : AppState :=
  { s with current_application_context := [] }

/-- State effect of processing one field inside `fill_all_fields`
(lines 228-234): record the response under the label; nothing else in the
method touches the orchestrator state. -/
def fill_step (s : AppState) (label response : String) : AppState :=
  { s with answer_history := fill_record s.answer_history label response }

/-- State effect of one `change_answer` call (lines 403-442): when the label
has history, replace it with the history produced by the navigation core;
when it has none, the method only prints and changes nothing. -/
def change_answer_step (s : AppState) (dir : Direction) (label v gen : String) : AppState :=
  match s.answer_history label with
  | none => s
  | some hist =>
      { s with answer_history :=
          fun l => if l = label then some (change_answer dir hist v gen).history
                   else s.answer_history l }

/- ======================== fill_all_fields dispatch ======================== -/

/-- One element as `fill_all_fields` sees it after `extract_input_elements`:
the tag name and id/name attributes parsed from the markup fragment, whether
the fragment carries `type='radio'`, and the live element's visibility,
enabledness and resolved type attribute. -/
structure ScannedElem where
  tag : String
  idAttr : Option String
  nameAttr : Option String
  typeRadio : Bool
  displayed : Bool
  enabled : Bool
  resolvedType : Option String
deriving DecidableEq

/-- A prompt/generate/apply run performed by the fill-all pass: either a
radio-group handling for a name, or an ordinary field fill addressed by id or
name. -/
inductive FillEvent where
  | radioPrompt (nm : String)
  | fieldPrompt (ident : String)
deriving DecidableEq

/-- The prompt/generate/apply runs triggered by one loop iteration of
`fill_all_fields` (lines 185-234): skip when both id and name are falsy;
radio inputs go to `handle_radio_group` (which prompts once unless the name is
falsy or the page has no radios under that name, lines 239-254); other
elements prompt once unless hidden, disabled or a file input.
`radiosByName nm` is the number of elements `find_elements(By.NAME, nm)`
returns on the live page. -/
def elemEvents (radiosByName : String → Nat) (e : ScannedElem) : List FillEvent :=
  if pyTruthy e.idAttr = false ∧ pyTruthy e.nameAttr = false then []
  else if e.tag = "input" ∧ e.typeRadio then
    match e.nameAttr with
    | none => []
    | some nm =>
        if nm = "" then []
        else if radiosByName nm = 0 then []
        else [.radioPrompt nm]
  else
    if e.displayed ∧ e.enabled then
      if e.resolvedType = some "file" then []
      else [.fieldPrompt (if pyTruthy e.idAttr then (e.idAttr.getD "") else (e.nameAttr.getD ""))]
    else []

/-- The whole fill-all pass over the extracted elements, in document order. -/
def fill_all_events (radiosByName : String → Nat) : List ScannedElem → List FillEvent
  | [] => []
  | e :: es => elemEvents radiosByName e ++ fill_all_events radiosByName es

/-- How many radio-group prompt/generate/apply runs a fill-all pass performs
for the group named `nm`. -/
def countRadioPrompts (nm : String) (evs : List FillEvent) : Nat :=
  evs.countP (fun ev => match ev with
    | .radioPrompt m => m == nm
    | .fieldPrompt _ => false)

/-- A radio option element of group `nm` that survives the fill-all guards:
a truthy id or name, the input tag, the radio type, the group name attribute
itself truthy and matched by live radios on the page. -/
def radioSurvives (radiosByName : String → Nat) (nm : String) (e : ScannedElem) : Bool :=
  (pyTruthy e.idAttr || pyTruthy e.nameAttr) && (e.tag == "input") && e.typeRadio &&
    (e.nameAttr == some nm) && !(nm == "") && !(radiosByName nm == 0)

/- ======================== field value appliers ======================== -/

/-- The modality-specific commit paths of the program: plain clear-and-type
(`handle_text_input` and the commit at the end of `change_answer`), fuzzy
select matching (`handle_select`), and checkbox truthy/falsy clicking
(`handle_checkbox`). -/
inductive ApplyAction where
  | clearAndType
  | selectFuzzy
  | checkboxToggle
deriving DecidableEq

/-- Embedding of the dispatch in `fill_field` (lines 282-290): select tag
first, then checkbox type, else the text path. -/
def fill_field_action (tagName : String) (typeAttr : Option String) : ApplyAction :=
  if tagName = "select" then .selectFuzzy
  else if typeAttr = some "checkbox" then .checkboxToggle
  else .clearAndType

set_option linter.unusedVariables false in
/-- The commit `change_answer` performs on the focused element (lines
438-439): unconditionally `clear()` then `send_keys(new_answer)`, with no
branching on the element's tag or type. -/
def change_answer_commit (tagName : String) (typeAttr : Option String)
    (dir : Direction) (hist : List String) (currentValue gen : String) :
    ChangeOutcome × ApplyAction :=
  (change_answer dir hist currentValue gen, ApplyAction.clearAndType)

/-- Result of `handle_checkbox` on one element: how many times the element
was clicked, its final checked state, and whether the invalid-response
diagnostic was reported. -/
structure CheckboxResult where
  clicks : Nat
  checked : Bool
  invalid : Bool
deriving DecidableEq

/-- Embedding of `handle_checkbox` (lines 303-314): lowercase-trim the
response, click into the checked state on a truthy value, click out of it on
a falsy value, report invalid otherwise. -/
def handle_checkbox (response : String) (isSelected : Bool) : CheckboxResult :=
  let r := pyLower (pyStrip response)
  if r = "yes" ∨ r = "true" ∨ r = "1" ∨ r = "on" then
    if !isSelected then { clicks := 1, checked := true, invalid := false }
    else { clicks := 0, checked := true, invalid := false }
  else if r = "no" ∨ r = "false" ∨ r = "0" ∨ r = "off" then
    if isSelected then { clicks := 1, checked := false, invalid := false }
    else { clicks := 0, checked := false, invalid := false }
  else { clicks := 0, checked := isSelected, invalid := true }

/-- The checkbox behaviour exactly as claimed: map the lowercase-trimmed
response through the truthy/falsy sets to a desired state, click once iff the
current state differs, and on any other value report invalid and change
nothing. -/
def checkbox_claim_model (response : String) (isSelected : Bool) : CheckboxResult :=
  let r := pyLower (pyStrip response)
  let desired : Option Bool :=
    if r ∈ ["yes", "true", "1", "on"] then some true
    else if r ∈ ["no", "false", "0", "off"] then some false
    else none
  match desired with
  | some d => { clicks := if isSelected = d then 0 else 1, checked := d, invalid := false }
  | none => { clicks := 0, checked := isSelected, invalid := true }

/- ======================== model_interface.py ======================== -/

/-- The generation parameters `query_model` assembles (lines 164-171 of
job_application_autofill.py), with the configured decoding method and the
question flag. -/
structure GenParams where
  method : String
  beamSize : Nat
  topK : Nat
  topP : ℚ
  isQuestion : Bool
deriving DecidableEq

/-- The keyword arguments `HuggingFaceInterface.generate` passes to the
library `model.generate` call (lines 133-174 of model_interface.py). -/
structure GenerateKwargs where
  maxNewTokens : Nat
  numReturnSequences : Nat
  numBeams : Option Nat
  earlyStopping : Bool
  noRepeatNgramSize : Option Nat
  doSample : Bool
  topK : Option Nat
  topP : Option ℚ
  temperature : Option ℚ
deriving DecidableEq

/-- The base kwargs before method-specific configuration (lines 133-137):
`max_new_tokens=32`, one returned sequence. -/
def base_generate_kwargs : GenerateKwargs :=
  { maxNewTokens := 32, numReturnSequences := 1, numBeams := none,
    earlyStopping := false, noRepeatNgramSize := none, doSample := false,
    topK := none, topP := none, temperature := none }

/-- Where `HuggingFaceInterface.generate` sends a request: to the library
`model.generate` with explicit kwargs, or to the hand-written custom sampling
loop (which receives only the question flag and field info, no kwargs). -/
inductive GenerateDispatch where
  | library (kwargs : GenerateKwargs)
  | custom (isQuestion : Bool)
deriving DecidableEq

/-- Embedding of the method dispatch in `HuggingFaceInterface.generate`
(lines 126-181): the four standard strategies update the base kwargs and call
the library; `custom` returns `_custom_generation_method` directly; an
unrecognized method falls through the `match` and uses the base kwargs. -/
def hf_generate (p : GenParams) : GenerateDispatch :=
  if p.method = "greedy" then
    .library { base_generate_kwargs with numBeams := some 1 }
  else if p.method = "beam" then
    .library { base_generate_kwargs with
      numBeams := some p.beamSize, earlyStopping := true, noRepeatNgramSize := some 2 }
  else if p.method = "top_k" then
    .library { base_generate_kwargs with
      doSample := true, topK := some p.topK, temperature := some 0.7 }
  else if p.method = "top_p" then
    .library { base_generate_kwargs with
      doSample := true, topP := some p.topP, topK := some 0, temperature := some 0.7 }
  else if p.method = "custom" then
    .custom p.isQuestion
  else
    .library base_generate_kwargs

/-- The new-token budget a dispatch enforces: the library path truncates at
its `max_new_tokens`; the custom loop has no budget at all. -/
def dispatch_budget : GenerateDispatch → Option Nat
  | .library k => some k.maxNewTokens
  | .custom _ => none

/-- One run of the `while True` sampling loop of
`_custom_generation_method` (lines 88-124), abstracted over the sampled token
stream: `sample i` is the token drawn at step `i`; the loop stops after the
step whose sample is the end-of-sequence token, having then appended `i + 1`
tokens to the sequence. `fuel` bounds the modelled unrolling only; the code
itself has no bound. Returns `none` when no end-of-sequence token occurs
within `fuel` steps. -/
def custom_loop (sample : Nat → Nat) (eos : Nat) : Nat → Nat → Option Nat
  | 0, _ => none
  | fuel + 1, i => if sample i = eos then some (i + 1) else custom_loop sample eos fuel (i + 1)

/-- Number of tokens the custom sampling loop appends before stopping,
observed through `fuel` steps of unrolling. -/
def custom_new_tokens (sample : Nat → Nat) (eos fuel : Nat) : Option Nat :=
  custom_loop sample eos fuel 0

/-- The question test in `query_model` (line 152):
`label.strip().strip("*").strip().endswith("?")`. -/
def is_question_label (label : String) : Bool :=
  let s1 := stripList (fun c => c.isWhitespace) label.data
  let s2 := stripList (fun c => c == '*') s1
  let s3 := stripList (fun c => c.isWhitespace) s2
  s3.getLast? == some '?'

/-- Embedding of the `is_question` computation in `query_model` (lines
146-152): the label is resolved only when an element is passed; with no
element the flag stays `False`. -/
def query_model_is_question (element : Option FieldProbe) : Bool :=
  match element with
  | none => false
  | some e =>
      let label := get_field_label e
      if label == "" then false else is_question_label label

/-- The temperature choice of `_custom_generation_method`
(lines 74-80 of model_interface.py). -/
def custom_temperature (is_question : Bool) : ℚ :=
  if is_question then 1.5 else 0.9

/-- The temperature the custom strategy actually runs with when a field is
filled through `fill_all_fields` or `change_answer`: both call sites invoke
`query_model(prompt)` without the element argument (lines 231 and 435). -/
def fill_path_custom_temperature : ℚ :=
  custom_temperature (query_model_is_question none)

/- ======================== levenshtein_distance ======================== -/

/-- The substitution cost `(c1 != c2)` of the inner loop (line 332). -/
def levCost (c1 c2 : Char) : Nat := if c1 = c2 then 0 else 1

/-- Textbook recursive Levenshtein distance with unit costs, used as the
reference function the dynamic program is proved against. -/
def levRec : List Char → List Char → Nat
  | [], ys => ys.length
  | _ :: xs, [] => xs.length + 1
  | x :: xs, y :: ys =>
      min (min (levRec xs (y :: ys) + 1) (levRec (x :: xs) ys + 1))
        (levRec xs ys + levCost x y)
termination_by xs ys => xs.length + ys.length
decreasing_by all_goals simp_wf <;> omega

/-- Reference distance oriented the way the dynamic program consumes its
inputs (rows extend `s1`, columns extend `s2`, both at the right end). -/
def levD (p q : List Char) : Nat := levRec p.reverse q.reverse

/-- The inner `for j, c2 in enumerate(s2)` loop of `levenshtein_distance`
(lines 329-333), walking the remaining column characters together with the
suffix of the previous row from index `j`; `cur` is the last entry appended
to the current row. Each step appends
`min(previous_row[j+1] + 1, current_row[j] + 1, previous_row[j] + (c1 != c2))`. -/
def innerLoop (c1 : Char) : List Char → List Nat → Nat → List Nat
  | [], _, _ => []
  | _ :: _, [], _ => []
  | c2 :: cs, pj :: ps, cur =>
      let e := min (min (ps.headD 0 + 1) (cur + 1)) (pj + levCost c1 c2)
      e :: innerLoop c1 cs ps e

/-- The outer `for i, c1 in enumerate(s1)` loop of `levenshtein_distance`
(lines 327-334): each row starts as `[i + 1]` and is completed by the inner
loop, then becomes the previous row. -/
def outerLoop (s2 : List Char) : List Char → List Nat → Nat → List Nat
  | [], prev, _ => prev
  | c1 :: cs, prev, i =>
      outerLoop s2 cs ((i + 1) :: innerLoop c1 s2 prev (i + 1)) (i + 1)

/-- Embedding of `levenshtein_distance` (lines 321-335) on character lists:
swap so the first argument is at least as long, answer the empty case
directly, otherwise run the dynamic program from the row `range(len(s2)+1)`
and return the last entry of the final row. -/
def levenshtein_chars (s1 s2 : List Char) : Nat :=
  if h : s1.length < s2.length then levenshtein_chars s2 s1
  else if s2.length = 0 then s1.length
  else (outerLoop s2 s1 (List.range (s2.length + 1)) 0).getLastD 0
termination_by s2.length
decreasing_by exact h

/-- `levenshtein_distance` on Python strings. -/
def levenshtein_distance (s1 s2 : String) : Nat :=
  levenshtein_chars s1.data s2.data

/-- The reference description of a dynamic-programming row: the values of
`f` on every proper extension of the consumed column prefix `q` by a
non-empty prefix of the remaining column characters `t` (used to state the
loop invariants of `levenshtein_chars`). -/
def prefRow (f : List Char → Nat) : List Char → List Char → List Nat
  | _, [] => []
  | q, c :: cs => f (q ++ [c]) :: prefRow f (q ++ [c]) cs

/- ======================== theorems ======================== -/

/-- Claim C8: applying a response to a checkbox maps the lowercase-trimmed
response through the truthy set {yes,true,1,on} and falsy set
{no,false,0,off}, clicks exactly once iff the desired state differs from the
current one, and any other response is reported invalid and leaves the state
unchanged. -/
theorem C8_checkbox_behavior :
    ∀ (response : String) (isSelected : Bool),
      handle_checkbox response isSelected = checkbox_claim_model response isSelected := by
  intro r s
  unfold handle_checkbox checkbox_claim_model
  simp only [List.mem_cons, List.not_mem_nil, or_false]
  by_cases h1 : pyLower (pyStrip r) = "yes" ∨ pyLower (pyStrip r) = "true" ∨
      pyLower (pyStrip r) = "1" ∨ pyLower (pyStrip r) = "on"
  · cases s <;> simp [h1]
  · by_cases h2 : pyLower (pyStrip r) = "no" ∨ pyLower (pyStrip r) = "false" ∨
        pyLower (pyStrip r) = "0" ∨ pyLower (pyStrip r) = "off"
    · cases s <;> simp [h1, h2]
    · simp [h1, h2]

/-- Claim C10: the previous/next navigation operation always commits the
chosen answer through the plain clear-and-type path, whatever the focused
element's tag and type are, whereas the fill operation routes select tags,
checkbox-typed inputs and radio inputs through their modality-specific apply
logic. -/
theorem C10_change_answer_text_path :
    ∀ (tagName : String) (typeAttr : Option String) (dir : Direction)
      (hist : List String) (v g : String),
      (change_answer_commit tagName typeAttr dir hist v g).2 = ApplyAction.clearAndType ∧
      fill_field_action "select" typeAttr = ApplyAction.selectFuzzy ∧
      fill_field_action "input" (some "checkbox") = ApplyAction.checkboxToggle ∧
      (∀ (radiosByName : String → Nat) (nm : String), nm ≠ "" → radiosByName nm ≠ 0 →
        elemEvents radiosByName
          { tag := "input", idAttr := none, nameAttr := some nm, typeRadio := true,
            displayed := true, enabled := true, resolvedType := some "radio" }
          = [FillEvent.radioPrompt nm]) ∧
      ApplyAction.selectFuzzy ≠ ApplyAction.clearAndType ∧
      ApplyAction.checkboxToggle ≠ ApplyAction.clearAndType := by
  intro tagName typeAttr dir hist v g
  refine ⟨rfl, by simp [fill_field_action], by simp [fill_field_action], ?_, by simp, by simp⟩
  intro radiosByName nm hnm hrb
  simp [elemEvents, pyTruthy, hnm, hrb]

/-- Claim C10 witness at a concrete select element and radio group. -/
theorem C10_change_answer_text_path_witness :
    (change_answer_commit "select" none .next ["a"] "a" "g").2 = ApplyAction.clearAndType ∧
    elemEvents (fun _ => 2)
      { tag := "input", idAttr := none, nameAttr := some "g", typeRadio := true,
        displayed := true, enabled := true, resolvedType := some "radio" }
      = [FillEvent.radioPrompt "g"] := by
  have h := C10_change_answer_text_path "select" none .next ["a"] "a" "g"
  exact ⟨h.1, h.2.2.2.1 (fun _ => 2) "g" (by decide) (by decide)⟩

/-- Claim C1 as stated is false: `fill_all_fields` line 232 assigns
`answer_history[label] = [response]`, so filling a field whose label already
has history ["a", "b"] replaces the entries with ["c"] instead of extending
them. -/
theorem C1_counterexample :
    fill_record (fun l => if l = "Years?" then some ["a", "b"] else none) "Years?" "c" "Years?"
        = some ["c"] ∧
    some ["c"] ≠ some ["a", "b", "c"] ∧
    "a" ∉ ["c"] := by decide

/-- Claim C1 amended: within `change_answer` the label's history is
append-only (the prior sequence is always a prefix of the new one), but
`fill_all_fields` resets the label's history to the one-element list holding
the fresh response, discarding any previous entries. -/
theorem C1_amended_history :
    (∀ (dir : Direction) (hist : List String) (v g : String),
        ∃ t, (change_answer dir hist v g).history = hist ++ t) ∧
    (∀ (h : String → Option (List String)) (label response : String),
        fill_record h label response label = some [response]) := by
  constructor
  · intro dir hist v g
    cases dir with
    | previous => exact ⟨[], by simp [change_answer]⟩
    | next =>
      by_cases hlt : current_index hist v < (hist.length : Int) - 1
      · exact ⟨[], by simp [change_answer, hlt]⟩
      · exact ⟨[g], by simp [change_answer, hlt]⟩
  · intro h label response
    simp [fill_record]

/-- Claim C3 as stated is false: processing a field in `fill_all_fields`
never appends to `current_application_context`; after a successful fill the
context is still empty rather than holding the (label, answer) pair. -/
theorem C3_counterexample :
    (fill_step { current_application_context := [], answer_history := fun _ => none }
        "L" "r").current_application_context = [] ∧
    ([] : List (String × String)) ≠ [("L", "r")] := by
  exact ⟨rfl, by simp⟩

/-- Claim C3 amended: `current_application_context` is cleared by the
explicit new-application reset and is otherwise never mutated — in
particular, no fill or navigation operation appends to it. -/
theorem C3_amended_context_constant :
    ∀ (s : AppState) (label response v g : String) (dir : Direction),
      (fill_step s label response).current_application_context
          = s.current_application_context ∧
      (change_answer_step s dir label v g).current_application_context
          = s.current_application_context ∧
      (new_application s).current_application_context = [] := by
  intro s label response v g dir
  refine ⟨rfl, ?_, rfl⟩
  unfold change_answer_step
  rcases s.answer_history label with _ | hist <;> rfl

/-- Claim C4 as stated is false: with history ["a", "b"] and a displayed
value "z" absent from history, the cursor is -1 and `-1 < len - 1`, so "next"
reuses the stored answer at index 0 instead of triggering a fresh
generation. -/
theorem C4_counterexample :
    "z" ∉ ["a", "b"] ∧
    (change_answer .next ["a", "b"] "z" "gen").generated = false ∧
    (change_answer .next ["a", "b"] "z" "gen").history = ["a", "b"] ∧
    (change_answer .next ["a", "b"] "z" "gen").newAnswer = "a" := by decide

/-- Helper for C4: the cursor is -1 exactly when the displayed value is
absent from the label's history. -/
theorem current_index_of_not_mem {hist : List String} {v : String} (h : v ∉ hist) :
    current_index hist v = -1 := by
  unfold current_index
  have hnone : hist.findIdx? (fun a => a == v) = none := by
    rw [List.findIdx?_eq_none_iff]
    intro x hx
    simp only [beq_eq_false_iff_ne, ne_eq]
    exact fun hxv => h (hxv ▸ hx)
  rw [hnone]

/-- Claim C4 amended: "next" advances the cursor by one and reuses the stored
answer whenever the cursor is strictly below the last index — including
cursor -1 when the displayed value is absent from a non-empty history, which
reuses the entry at index 0; a fresh generation (appended and written) is
triggered only when the cursor already sits at the last index. -/
theorem C4_next_semantics (hist : List String) (v g : String) :
    (current_index hist v < (hist.length : Int) - 1 →
      change_answer .next hist v g =
        { newAnswer := hist.getD (current_index hist v + 1).toNat "",
          history := hist, generated := false }) ∧
    (¬ current_index hist v < (hist.length : Int) - 1 →
      change_answer .next hist v g =
        { newAnswer := g, history := hist ++ [g], generated := true }) ∧
    (hist ≠ [] → v ∉ hist →
      change_answer .next hist v g =
        { newAnswer := hist.getD 0 "", history := hist, generated := false }) := by
  refine ⟨fun h => by simp [change_answer, h], fun h => by simp [change_answer, h], ?_⟩
  intro hne hnm
  have hidx : current_index hist v = -1 := current_index_of_not_mem hnm
  have hlen : 1 ≤ hist.length := List.length_pos.mpr hne
  have hlt : current_index hist v < (hist.length : Int) - 1 := by
    rw [hidx]; omega
  have h1 : change_answer .next hist v g =
      { newAnswer := hist.getD (current_index hist v + 1).toNat "",
        history := hist, generated := false } := by
    simp [change_answer, hlt]
  rw [h1, hidx]
  norm_num

/-- Claim C4 witness: reuse below the last index, generation at the last
index, and index-0 reuse for an absent displayed value, all on concrete
histories. -/
theorem C4_next_semantics_witness :
    change_answer .next ["a", "b"] "a" "g"
        = { newAnswer := "b", history := ["a", "b"], generated := false } ∧
    change_answer .next ["a", "b"] "b" "g"
        = { newAnswer := "g", history := ["a", "b", "g"], generated := true } ∧
    change_answer .next ["a", "b"] "q" "g"
        = { newAnswer := "a", history := ["a", "b"], generated := false } := by
  refine ⟨?_, ?_, ?_⟩
  · exact ((C4_next_semantics ["a", "b"] "a" "g").1 (by decide)).trans (by decide)
  · exact ((C4_next_semantics ["a", "b"] "b" "g").2.1 (by decide)).trans (by decide)
  · exact ((C4_next_semantics ["a", "b"] "q" "g").2.2 (by decide) (by decide)).trans (by decide)

/-- Claim C2 as stated is false: the `fill_all_fields` loop dispatches to
`handle_radio_group` once per radio option element, so a two-option group
named "g" is prompted/generated/applied twice, not once. -/
theorem C2_counterexample :
    countRadioPrompts "g" (fill_all_events (fun _ => 2)
      [{ tag := "input", idAttr := none, nameAttr := some "g", typeRadio := true,
         displayed := true, enabled := true, resolvedType := some "radio" },
       { tag := "input", idAttr := none, nameAttr := some "g", typeRadio := true,
         displayed := true, enabled := true, resolvedType := some "radio" }]) = 2 ∧
    (2 : Nat) ≠ 1 := by decide

/-- Helper for C2: `none == some nm` on optional strings is false. -/
theorem beq_none_some (nm : String) : ((none : Option String) == some nm) = false := rfl

/-- Helper for C2: radio prompts contributed by a single loop iteration. -/
theorem elemEvents_radio_count (radiosByName : String → Nat) (nm : String) (e : ScannedElem) :
    countRadioPrompts nm (elemEvents radiosByName e) =
      (if radioSurvives radiosByName nm e then 1 else 0) := by
  obtain ⟨tag, idA, nmA, tr, d, en, rt⟩ := e
  cases nmA with
  | none =>
    simp only [elemEvents, radioSurvives]
    split_ifs <;>
      simp_all [countRadioPrompts, List.countP_cons, beq_none_some, pyTruthy]
  | some m =>
    simp only [elemEvents, radioSurvives]
    split_ifs <;>
      by_cases hmn : m = nm <;>
      by_cases htag : tag = "input" <;>
      simp_all [countRadioPrompts, List.countP_cons, pyTruthy]

/-- Claim C2 amended: during a fill-all pass the prompt/generate/apply
sequence for radio inputs runs once per surviving radio option element (an
option whose fragment has a truthy id or name, the input tag, the radio
type, and whose shared name is truthy and matched by live radios), hence n
times for a group of n options — not once per group. -/
theorem C2_radio_per_option (radiosByName : String → Nat) (nm : String) :
    ∀ (elems : List ScannedElem),
      countRadioPrompts nm (fill_all_events radiosByName elems) =
        elems.countP (radioSurvives radiosByName nm) := by
  intro elems
  induction elems with
  | nil => rfl
  | cons e es ih =>
    show countRadioPrompts nm (elemEvents radiosByName e ++ fill_all_events radiosByName es) = _
    unfold countRadioPrompts at *
    rw [List.countP_append, List.countP_cons, ih,
      ← elemEvents_radio_count radiosByName nm e]
    unfold countRadioPrompts
    omega

/-- Claim C5 as stated is false: a whitespace-only accessible-name attribute
is truthy in the raw-value fallback chain, so it wins over a non-empty
placeholder even though it is empty after trimming — the "first non-empty
after trimming wins" rule does not hold for the attribute strategies. -/
theorem C5_counterexample :
    get_field_label
        { idAttr := none, forLabelText := none, ancestorLabelText := none,
          precedingLabelText := none, siblingLabelText := none,
          ariaLabel := some " ", placeholder := some "Email", nameAttr := none } = " " ∧
    pyStrip " " = "" ∧
    (" " : String) ≠ "Email" := by decide

/-- Helper for C5: a DOM strategy never yields the empty string. -/
theorem tryLabel_ne_empty {o : Option String} {s : String} (h : tryLabel o = some s) :
    s ≠ "" := by
  cases o with
  | none => simp [tryLabel] at h
  | some t =>
    simp only [tryLabel] at h
    by_cases ht : pyStrip t == ""
    · simp [ht] at h
    · simp only [ht, if_neg, Bool.false_eq_true, if_false, Option.some.injEq] at h
      subst h
      simpa using ht

/-- Helper for C5: the attribute fallback never yields the empty string when
its final default is non-empty. -/
theorem pyOrStr_ne_empty (a : Option String) (b : String) (hb : b ≠ "") :
    pyOrStr a b ≠ "" := by
  cases a with
  | none => simpa [pyOrStr] using hb
  | some s =>
    simp only [pyOrStr]
    by_cases hs : s == ""
    · simpa [hs] using hb
    · simpa [hs] using by simpa using hs

/-- Claim C5 amended: label resolution is total and ordered — it always
returns a non-empty string and equals the corrected priority model: the four
DOM strategies first, first non-empty-after-trimming text winning; then the
accessible-name, placeholder and name attributes, first raw non-empty
(possibly whitespace-only) value winning untrimmed; the sentinel
"Unknown field" only when every strategy yields nothing. -/
theorem C5_label_resolution (e : FieldProbe) :
    get_field_label e = label_resolution_model e ∧ get_field_label e ≠ "" := by
  constructor
  · unfold get_field_label label_resolution_model
    cases h1 : tryLabel (if pyTruthy e.idAttr then e.forLabelText else none) with
    | some s => simp [h1, List.filterMap_cons]
    | none =>
      cases h2 : tryLabel e.ancestorLabelText with
      | some s => simp [h1, h2, List.filterMap_cons]
      | none =>
        cases h3 : tryLabel e.precedingLabelText with
        | some s => simp [h1, h2, h3, List.filterMap_cons]
        | none =>
          cases h4 : tryLabel e.siblingLabelText with
          | some s => simp [h1, h2, h3, h4, List.filterMap_cons]
          | none =>
            simp only [h1, h2, h3, h4, List.filterMap_cons, List.filterMap_nil,
              List.head?_nil]
            cases e.ariaLabel with
            | none =>
              cases e.placeholder with
              | none =>
                cases e.nameAttr with
                | none => simp [pyOrStr]
                | some c => by_cases hc : c == "" <;> simp [pyOrStr, hc]
              | some b =>
                by_cases hb : b == "" <;>
                  cases e.nameAttr with
                  | none => simp [pyOrStr, hb]
                  | some c => by_cases hc : c == "" <;> simp [pyOrStr, hb, hc]
            | some a =>
              by_cases ha : a == ""
              · cases e.placeholder with
                | none =>
                  cases e.nameAttr with
                  | none => simp [pyOrStr, ha]
                  | some c => by_cases hc : c == "" <;> simp [pyOrStr, ha, hc]
                | some b =>
                  by_cases hb : b == "" <;>
                    cases e.nameAttr with
                    | none => simp [pyOrStr, ha, hb]
                    | some c => by_cases hc : c == "" <;> simp [pyOrStr, ha, hb, hc]
              · simp [pyOrStr, ha]
  · unfold get_field_label
    cases h1 : tryLabel (if pyTruthy e.idAttr then e.forLabelText else none) with
    | some s => simpa using tryLabel_ne_empty h1
    | none =>
      cases h2 : tryLabel e.ancestorLabelText with
      | some s => simpa using tryLabel_ne_empty h2
      | none =>
        cases h3 : tryLabel e.precedingLabelText with
        | some s => simpa using tryLabel_ne_empty h3
        | none =>
          cases h4 : tryLabel e.siblingLabelText with
          | some s => simpa using tryLabel_ne_empty h4
          | none =>
            simpa using pyOrStr_ne_empty _ _
              (pyOrStr_ne_empty _ _ (pyOrStr_ne_empty _ _ (by decide)))


/-- Claim C6 as stated is false: the custom strategy is dispatched to
`_custom_generation_method`, which carries no kwargs and hence no
`max_new_tokens` budget; a sampled stream whose first end-of-sequence token
arrives at step 40 makes the loop append 41 tokens, exceeding 32. -/
theorem C6_counterexample :
    dispatch_budget (hf_generate
      { method := "custom", beamSize := 5, topK := 50, topP := 0.9,
        isQuestion := false }) = none ∧
    custom_new_tokens (fun i => if i = 40 then 7 else 3) 7 100 = some 41 ∧
    41 > 32 := by decide

/-- Helper for C6: one unfolding of the sampling loop. -/
theorem custom_loop_succ (sample : Nat → Nat) (eos fuel i : Nat) :
    custom_loop sample eos (fuel + 1) i =
      if sample i = eos then some (i + 1) else custom_loop sample eos fuel (i + 1) := rfl

/-- Helper for C6: a stream whose first end-of-sequence token arrives at
step `i + k` makes the loop starting at step `i` stop after appending
`i + k + 1` tokens. -/
theorem custom_loop_hits : ∀ (k i : Nat),
    custom_loop (fun j => if j = i + k then 0 else 1) 0 (k + 1) i = some (i + k + 1) := by
  intro k
  induction k with
  | zero => intro i; simp [custom_loop]
  | succ k ih =>
    intro i
    have hne : ¬ (i = i + (k + 1)) := by omega
    rw [custom_loop_succ]
    simp [hne]
    have harg : i + (k + 1) = (i + 1) + k := by omega
    rw [harg]
    simpa using ih (i + 1)

/-- Claim C6 amended: the greedy, beam, top-k and top-p variants all pass a
fixed `max_new_tokens` budget of 32 to the library call; the custom variant
bypasses the kwargs entirely and samples until an end-of-sequence token, so
for every bound there is a sampled stream making it generate more tokens
than that bound. -/
theorem C6_token_budget :
    ∀ (p : GenParams),
      dispatch_budget (hf_generate { p with method := "greedy" }) = some 32 ∧
      dispatch_budget (hf_generate { p with method := "beam" }) = some 32 ∧
      dispatch_budget (hf_generate { p with method := "top_k" }) = some 32 ∧
      dispatch_budget (hf_generate { p with method := "top_p" }) = some 32 ∧
      dispatch_budget (hf_generate { p with method := "custom" }) = none ∧
      ∀ bound : Nat, ∃ (sample : Nat → Nat) (fuel len : Nat),
        custom_new_tokens sample 0 fuel = some len ∧ bound < len := by
  intro p
  refine ⟨rfl, rfl, rfl, rfl, rfl, ?_⟩
  intro bound
  refine ⟨fun j => if j = bound then 0 else 1, bound + 1, bound + 1, ?_, by omega⟩
  simpa [custom_new_tokens] using custom_loop_hits bound 0

/-- Claim C7 evaluated at the failing input: the label "Years of
experience?" is judged a question by the `query_model` test, yet both call
sites (`fill_all_fields` line 231 and `change_answer` line 435) invoke
`query_model(prompt)` without the element, so `is_question` stays `False`
and every actual custom-strategy generation — including one for this
question label — runs at temperature 0.9 instead of 1.5. -/
theorem C7_code_bug_eval :
    is_question_label "Years of experience?" = true ∧
    query_model_is_question none = false ∧
    fill_path_custom_temperature = 0.9 ∧
    custom_temperature true = 1.5 ∧
    hf_generate { method := "custom", beamSize := 5, topK := 50, topP := 0.9,
                  isQuestion := query_model_is_question none }
        = GenerateDispatch.custom false ∧
    (0.9 : ℚ) ≠ 1.5 := by
  refine ⟨by decide, rfl, by norm_num [fill_path_custom_temperature,
    query_model_is_question, custom_temperature], by norm_num [custom_temperature],
    rfl, by norm_num⟩

/-- Helper for C9: the reference recursion on an empty second string. -/
theorem levRec_nil_right (xs : List Char) : levRec xs [] = xs.length := by
  cases xs <;> simp [levRec]

/-- Helper for C9: the reference recursion on an empty first string. -/
theorem levRec_nil_left (ys : List Char) : levRec [] ys = ys.length := by
  simp [levRec]

/-- Helper for C9: the cons-cons step of the reference recursion. -/
theorem levRec_cons_cons (x y : Char) (xs ys : List Char) :
    levRec (x :: xs) (y :: ys) =
      min (min (levRec xs (y :: ys) + 1) (levRec (x :: xs) ys + 1))
        (levRec xs ys + levCost x y) := by
  rw [levRec]

/-- Helper for C9: the reference recursion is symmetric. -/
theorem levRec_symm : ∀ (xs ys : List Char), levRec xs ys = levRec ys xs := by
  intro xs
  induction xs with
  | nil =>
    intro ys
    cases ys with
    | nil => rfl
    | cons y ys => simp [levRec_nil_left, levRec_nil_right]
  | cons x xs ih =>
    intro ys
    induction ys with
    | nil => simp [levRec_nil_left, levRec_nil_right]
    | cons y ys ih2 =>
      rw [levRec_cons_cons, levRec_cons_cons]
      rw [ih (y :: ys), ih ys, ih2]
      have hc : levCost x y = levCost y x := by
        unfold levCost
        rcases eq_or_ne x y with h | h
        · subst h; rfl
        · rw [if_neg h, if_neg (Ne.symm h)]
      rw [hc]
      omega

/-- Helper for C9: the reference recursion vanishes on the diagonal. -/
theorem levRec_self : ∀ (xs : List Char), levRec xs xs = 0 := by
  intro xs
  induction xs with
  | nil => simp [levRec_nil_left]
  | cons x xs ih =>
    rw [levRec_cons_cons]
    have hc : levCost x x = 0 := by simp [levCost]
    rw [ih, hc]
    omega

/-- Helper for C9: right-end-oriented reference distance on an empty second
string. -/
theorem levD_nil_right (p : List Char) : levD p [] = p.length := by
  simp [levD, levRec_nil_right]

/-- Helper for C9: the two-sided recurrence the inner loop implements. -/
theorem levD_snoc_snoc (p q : List Char) (c d : Char) :
    levD (p ++ [c]) (q ++ [d]) =
      min (min (levD p (q ++ [d]) + 1) (levD (p ++ [c]) q + 1))
        (levD p q + levCost c d) := by
  simp only [levD, List.reverse_append, List.reverse_cons, List.reverse_nil,
    List.nil_append, List.singleton_append]
  rw [levRec_cons_cons]

/-- Helper for C9: the right-end-oriented distance is symmetric. -/
theorem levD_symm (p q : List Char) : levD p q = levD q p := by
  unfold levD
  exact levRec_symm _ _

/-- Helper for C9: the right-end-oriented distance vanishes on the
diagonal. -/
theorem levD_self (p : List Char) : levD p p = 0 := by
  unfold levD
  exact levRec_self _

/-- Helper for C9: the inner loop turns the row of distances from `xs` into
the row of distances from `xs ++ [c1]`. -/
theorem innerLoop_prefRow (c1 : Char) (xs : List Char) :
    ∀ (t q : List Char),
      innerLoop c1 t (levD xs q :: prefRow (levD xs) q t) (levD (xs ++ [c1]) q)
        = prefRow (levD (xs ++ [c1])) q t := by
  intro t
  induction t with
  | nil => intro q; rfl
  | cons c2 cs ih =>
    intro q
    simp only [prefRow, innerLoop, List.headD_cons]
    rw [← levD_snoc_snoc]
    rw [ih (q ++ [c2])]

/-- Helper for C9: the outer loop carries the row invariant across the
remaining row characters. -/
theorem outerLoop_prefRow (s2 : List Char) :
    ∀ (cs xs : List Char),
      outerLoop s2 cs (levD xs [] :: prefRow (levD xs) [] s2) xs.length
        = levD (xs ++ cs) [] :: prefRow (levD (xs ++ cs)) [] s2 := by
  intro cs
  induction cs with
  | nil => intro xs; simp [outerLoop]
  | cons c1 cs ih =>
    intro xs
    simp only [outerLoop]
    have hkey : (xs.length + 1) ::
        innerLoop c1 s2 (levD xs [] :: prefRow (levD xs) [] s2) (xs.length + 1)
        = levD (xs ++ [c1]) [] :: prefRow (levD (xs ++ [c1])) [] s2 := by
      have h1 : xs.length + 1 = levD (xs ++ [c1]) [] := by
        rw [levD_nil_right]; simp
      rw [h1]
      rw [innerLoop_prefRow c1 xs s2 []]
    rw [hkey]
    have h2 : xs.length + 1 = (xs ++ [c1]).length := by simp
    rw [h2]
    rw [ih (xs ++ [c1])]
    simp [List.append_assoc]

/-- Helper for C9: the initial row `range(len(s2) + 1)` is the row of
distances from the empty row prefix. -/
theorem prefRow_of_nil (s2 : List Char) :
    List.range (s2.length + 1) = levD [] [] :: prefRow (levD []) [] s2 := by
  have hlen : ∀ (t q : List Char),
      prefRow (levD []) q t = List.range' (q.length + 1) t.length := by
    intro t
    induction t with
    | nil => intro q; rfl
    | cons c cs ih =>
      intro q
      simp only [prefRow, List.length_cons]
      rw [ih (q ++ [c])]
      have h : levD [] (q ++ [c]) = q.length + 1 := by
        unfold levD
        simp [levRec_nil_left]
      rw [h]
      have h2 : (q ++ [c]).length + 1 = (q.length + 1) + 1 := by simp
      rw [h2]
      rfl
  rw [hlen s2 []]
  have h : levD [] [] = 0 := by
    unfold levD
    simp [levRec_nil_left]
  rw [h, List.range_eq_range']
  rfl

/-- Helper for C9: the last entry of a full row is the distance to the whole
second string. -/
theorem prefRow_last (f : List Char → Nat) :
    ∀ (t q : List Char) (d : Nat), (f q :: prefRow f q t).getLastD d = f (q ++ t) := by
  intro t
  induction t with
  | nil => intro q d; simp [prefRow]
  | cons c cs ih =>
    intro q d
    show (f q :: (f (q ++ [c]) :: prefRow f (q ++ [c]) cs)).getLastD d = f (q ++ c :: cs)
    rw [List.getLastD_cons]
    rw [ih (q ++ [c]) (f q)]
    simp [List.append_assoc]

/-- Helper for C9: the dynamic program of `levenshtein_distance` computes the
reference distance. -/
theorem dp_eq_levD (s1 s2 : List Char) :
    (outerLoop s2 s1 (List.range (s2.length + 1)) 0).getLastD 0 = levD s1 s2 := by
  rw [prefRow_of_nil s2]
  have h := outerLoop_prefRow s2 s1 []
  simp only [List.length_nil, List.nil_append] at h
  rw [h]
  rw [prefRow_last (levD s1) s2 [] 0]
  simp

/-- Helper for C9: the full `levenshtein_distance` wrapper (including the
argument swap and empty-string shortcut) computes the reference distance. -/
theorem lev_chars_eq_levD : ∀ (s1 s2 : List Char),
    levenshtein_chars s1 s2 = levD s1 s2 := by
  intro s1 s2
  by_cases h : s1.length < s2.length
  · rw [levenshtein_chars, dif_pos h]
    have h2 : ¬ s2.length < s1.length := by omega
    rw [levenshtein_chars, dif_neg h2]
    by_cases h3 : s1.length = 0
    · rw [if_pos h3]
      have hnil : s1 = [] := List.length_eq_zero.mp h3
      subst hnil
      rw [levD_symm, levD_nil_right]
    · rw [if_neg h3, dp_eq_levD s2 s1]
      exact levD_symm s2 s1
  · rw [levenshtein_chars, dif_neg h]
    by_cases h3 : s2.length = 0
    · rw [if_pos h3]
      have hnil : s2 = [] := List.length_eq_zero.mp h3
      subst hnil
      rw [levD_nil_right]
    · rw [if_neg h3, dp_eq_levD s1 s2]

/-- Claim C9: the edit-distance function is symmetric, vanishes on equal
strings, and measures against the empty string by length. -/
theorem C9_levenshtein_properties :
    ∀ (a b : String),
      levenshtein_distance a b = levenshtein_distance b a ∧
      levenshtein_distance a a = 0 ∧
      levenshtein_distance a "" = a.length := by
  intro a b
  unfold levenshtein_distance
  refine ⟨?_, ?_, ?_⟩
  · rw [lev_chars_eq_levD, lev_chars_eq_levD]
    exact levD_symm _ _
  · rw [lev_chars_eq_levD]
    exact levD_self _
  · rw [lev_chars_eq_levD]
    show levD a.data [] = a.length
    rw [levD_nil_right]
    rfl

/-- Claim C5 witness at a field with no attributes at all: resolution falls
through to the sentinel, which is non-empty. -/
theorem C5_label_resolution_witness :
    get_field_label
        { idAttr := none, forLabelText := none, ancestorLabelText := none,
          precedingLabelText := none, siblingLabelText := none,
          ariaLabel := none, placeholder := none, nameAttr := none }
      = label_resolution_model
        { idAttr := none, forLabelText := none, ancestorLabelText := none,
          precedingLabelText := none, siblingLabelText := none,
          ariaLabel := none, placeholder := none, nameAttr := none } ∧
    get_field_label
        { idAttr := none, forLabelText := none, ancestorLabelText := none,
          precedingLabelText := none, siblingLabelText := none,
          ariaLabel := none, placeholder := none, nameAttr := none } ≠ "" :=
  C5_label_resolution
    { idAttr := none, forLabelText := none, ancestorLabelText := none,
      precedingLabelText := none, siblingLabelText := none,
      ariaLabel := none, placeholder := none, nameAttr := none }
